import Mathlib

/-!
Shallow embedding of the doc_script pipeline (src/src/core/database.py,
src/src/core/error_handler.py, src/src/tasks/tasks.py,
src/src/services/document_chunker.py) and proofs about the claims of the
specification.  Pure Python functions become Lean functions; the SQLite
store becomes an explicit `Database` state threaded through each
operation; timestamps are integers (seconds); file-system side effects
are a list of existing paths.
-/

namespace DocScript

/-- Fixed stage order of the pipeline, as listed in the comment on the
`status` column of `FileProcessingStatus` (database.py line 26); `failed`
is reachable from any non-terminal stage and is not part of the forward
chain. -/
def stageOrder : List String :=
  ["pending", "downloading", "downloaded", "converting", "converted",
   "chunking", "chunked", "vectorizing", "vectorized", "saving", "completed"]

/-- One row of the `file_processing_status` table (database.py lines
14-51).  Columns not consulted by any verified operation (file_name,
file_url, file_size, file_type, metadata_json, created_at and the
per-stage timing floats, which the spec marks observability-only) are
omitted. -/
structure FileProcessingStatus where
  file_id : String
  status : String
  retry_count : Nat
  error_message : Option String
  download_path : Option String
  markdown_path : Option String
  chunk_count : Nat
  vector_count : Nat
  updated_at : Int
  deriving Repr, DecidableEq

/-- One row of the `processing_logs` table (database.py lines 53-63).
`extra_retry_count` models the `retry_count` entry of the JSON
`extra_data` payload when the caller passes one (error_handler.py lines
31-49); `task_id` and the timestamp are omitted. -/
structure ProcessingLog where
  file_id : String
  log_level : String
  message : String
  extra_retry_count : Option Nat
  deriving Repr, DecidableEq

/-- State of the store: the two tables plus the current wall clock in
seconds, modelling `datetime.utcnow()`. -/
structure Database where
  files : List FileProcessingStatus
  logs : List ProcessingLog
  now : Int
  deriving Repr, DecidableEq

/-- Python truthiness of an optional string argument (`if error_message:`,
database.py line 99): `None` and the empty string are falsy. -/
def optTruthy : Option String → Bool
  | none => false
  | some s => s ≠ ""

/-- Keyword arguments accepted by `DatabaseManager.update_status`
(database.py lines 103-106): the `**kwargs` loop sets any existing
column; the columns actually passed by callers are modelled. -/
structure UpdateKwargs where
  download_path : Option String
  markdown_path : Option String
  chunk_count : Option Nat
  vector_count : Option Nat
  retry_count : Option Nat
  deriving Repr, DecidableEq

/-- A call with no keyword arguments. -/
def noKwargs : UpdateKwargs := ⟨none, none, none, none, none⟩

/-- The `setattr` loop of `update_status` (database.py lines 103-106). -/
def applyKwargs (f : FileProcessingStatus) (kw : UpdateKwargs) : FileProcessingStatus :=
  { f with
    download_path := match kw.download_path with
      | some p => some p
      | none => f.download_path
    markdown_path := match kw.markdown_path with
      | some p => some p
      | none => f.markdown_path
    chunk_count := match kw.chunk_count with
      | some n => n
      | none => f.chunk_count
    vector_count := match kw.vector_count with
      | some n => n
      | none => f.vector_count
    retry_count := match kw.retry_count with
      | some n => n
      | none => f.retry_count }

/-- Field mutation performed by `update_status` on the matched row
(database.py lines 96-106): set `status` and `updated_at`, and, when a
truthy `error_message` is given, record it and increment `retry_count`;
finally apply the keyword arguments. -/
def updateFileFields (f : FileProcessingStatus) (status : String)
    (em : Option String) (kw : UpdateKwargs) (now : Int) : FileProcessingStatus :=
  let f1 : FileProcessingStatus := { f with status := status, updated_at := now }
  let f2 := if optTruthy em then
      { f1 with error_message := em, retry_count := f1.retry_count + 1 }
    else f1
  applyKwargs f2 kw

/-- Update of the first row matching `file_id` (the SQLAlchemy
`filter_by(file_id=...).first()` of database.py line 94); returns whether
a row was found together with the new table. -/
def updateFileList (fs : List FileProcessingStatus) (fid : String)
    (g : FileProcessingStatus → FileProcessingStatus) :
    Bool × List FileProcessingStatus :=
  match fs with
  | [] => (false, [])
  | f :: rest =>
    if f.file_id = fid then (true, g f :: rest)
    else
      let r := updateFileList rest fid g
      (r.1, f :: r.2)

/-- `DatabaseManager.update_status` (database.py lines 90-113): mutate the
matched row as `updateFileFields` and return `true`, or return `false`
when no row matches.  The logs table and the clock are untouched. -/
def updateStatus (db : Database) (fid status : String) (em : Option String)
    (kw : UpdateKwargs) : Bool × Database :=
  let r := updateFileList db.files fid
    (fun f => updateFileFields f status em kw db.now)
  (r.1, ⟨r.2, db.logs, db.now⟩)

/-- `DatabaseManager.get_file_status` (database.py lines 115-117). -/
def getFileStatus (db : Database) (fid : String) : Option FileProcessingStatus :=
  db.files.find? (fun f => f.file_id = fid)

/-- `DatabaseManager.add_log` (database.py lines 135-146): append one row
to the logs table. -/
def addLog (db : Database) (fid level message : String)
    (extraRetryCount : Option Nat) : Database :=
  ⟨db.files, db.logs ++ [⟨fid, level, message, extraRetryCount⟩], db.now⟩

/-- Statistics record returned by `DatabaseManager.get_statistics`
(database.py lines 152-171). -/
structure Statistics where
  total_files : Nat
  completed_files : Nat
  failed_files : Nat
  pending_files : Nat
  processing_files : Nat
  success_rate : ℚ
  deriving Repr, DecidableEq

/-- The five in-flight markers counted as `processing_files`
(database.py lines 158-162). -/
def processingStages : List String :=
  ["downloading", "converting", "chunking", "vectorizing", "saving"]

/-- `DatabaseManager.get_statistics` (database.py lines 152-171); the
Python float division is modelled in `ℚ`. -/
def getStatistics (db : Database) : Statistics :=
  let total := db.files.length
  let completed := (db.files.filter (fun f => f.status = "completed")).length
  let failed := (db.files.filter (fun f => f.status = "failed")).length
  let pending := (db.files.filter (fun f => f.status = "pending")).length
  let processing := (db.files.filter
    (fun f => processingStages.contains f.status)).length
  ⟨total, completed, failed, pending, processing,
    if total > 0 then (completed : ℚ) / (total : ℚ) * 100 else 0⟩

example :
    (updateStatus ⟨[⟨"f1", "pending", 0, none, none, none, 0, 0, 0⟩], [], 5⟩
      "f1" "downloading" none noKwargs).1 = true := by decide

example :
    (updateStatus ⟨[⟨"f1", "pending", 0, none, none, none, 0, 0, 0⟩], [], 5⟩
      "f2" "downloading" none noKwargs).1 = false := by decide

/-! Error handler (src/src/core/error_handler.py). -/

/-- Default of the `MAX_RETRIES` setting (config.py line 39). -/
def MAX_RETRIES : Nat := 3

/-- Base delay in seconds of the exponential backoff
(error_handler.py line 107). -/
def baseDelay : Nat := 60

/-- Delay cap in seconds of the exponential backoff
(error_handler.py line 108). -/
def maxDelay : Nat := 600

/-- `ErrorHandler._calculate_retry_delay` (error_handler.py lines
104-111). -/
def calculateRetryDelay (retryCount : Nat) : Nat :=
  min (baseDelay * 2 ^ retryCount) maxDelay

/-- Python exception classes that appear in the error-classification
logic; `genericException` stands for any class outside the retryable
tuple of error_handler.py lines 73-80 (e.g. plain `Exception` or
`ValueError`). -/
inductive PyExcKind where
  | connectionError
  | timeoutError
  | requestException
  | requestsConnectionError
  | requestsTimeout
  | httpError
  | genericException
  deriving Repr, DecidableEq

/-- The `isinstance(error, retryable_errors)` test of error_handler.py
lines 73-82: the transient network/service exception classes. -/
def isRetryableType : PyExcKind → Bool
  | .connectionError => true
  | .timeoutError => true
  | .requestException => true
  | .requestsConnectionError => true
  | .requestsTimeout => true
  | .httpError => true
  | .genericException => false

/-- A Python exception value: its class and its `str(error)` message. -/
structure PyError where
  kind : PyExcKind
  message : String
  deriving Repr, DecidableEq

/-- Prefix test on character lists, used to embed Python's substring
operator. -/
def charsPrefix : List Char → List Char → Bool
  | [], _ => true
  | _ :: _, [] => false
  | a :: as, b :: bs => a = b && charsPrefix as bs

/-- Occurrence test on character lists. -/
def charsContain (pat : List Char) : List Char → Bool
  | [] => charsPrefix pat []
  | c :: rest => charsPrefix pat (c :: rest) || charsContain pat rest

/-- Python's `keyword in error_message` substring test. -/
def containsSub (s pat : String) : Bool :=
  charsContain pat.data s.data

/-- Python's `str.lower()`. -/
def strLower (s : String) : String :=
  ⟨s.data.map Char.toLower⟩

/-- The `retryable_keywords` list of error_handler.py lines 87-96. -/
def retryableKeywords : List String :=
  ["timeout", "connection", "network", "temporary", "service unavailable",
   "internal server error", "bad gateway", "gateway timeout"]

/-- `ErrorHandler._should_retry` (error_handler.py lines 66-102): no
retry at or beyond `maxRetries`; otherwise retry exactly for the
retryable exception classes or a message containing a retryable
keyword. -/
def shouldRetry (maxRetries : Nat) (error : PyError) (retryCount : Nat) : Bool :=
  if retryCount ≥ maxRetries then false
  else if isRetryableType error.kind then true
  else retryableKeywords.any (fun kw => containsSub (strLower error.message) kw)

/-- Result dictionary of `ErrorHandler.handle_task_error`
(error_handler.py lines 31-64): the fields consulted by callers. -/
structure ErrorInfo where
  error_message : String
  retry_count : Nat
  should_retry : Bool
  retry_delay : Option Nat
  deriving Repr, DecidableEq

/-- `ErrorHandler.handle_task_error` (error_handler.py lines 17-64):
always append one ERROR log carrying the attempt counter; when the
classifier refuses a retry, also mark the item `failed` with the error
message. -/
def handleTaskError (db : Database) (error : PyError) (fid taskName : String)
    (retryCount : Nat) : ErrorInfo × Database :=
  let db1 := addLog db fid "ERROR"
    ("任务错误: " ++ taskName ++ " - " ++ error.message) (some retryCount)
  if shouldRetry MAX_RETRIES error retryCount then
    (⟨error.message, retryCount, true, some (calculateRetryDelay retryCount)⟩, db1)
  else
    (⟨error.message, retryCount, false, none⟩,
     (updateStatus db1 fid "failed" (some error.message) noKwargs).2)

/-! Celery stage tasks (src/src/tasks/tasks.py).  Each stage task's
`except` branch calls `handle_task_error` with `self.request.retries`
and re-raises via `self.retry(countdown=...)` while the handler allows a
retry and `self.request.retries < self.max_retries` (decorator
`max_retries=3`); Celery then re-runs the task with the counter
incremented.  `failLoop` is that loop for a stage whose execution fails
on every run (e.g. tasks.py lines 45-77 for `download_file`), returning
the final store state and the value of `self.request.retries` at the run
where retries stopped. -/

/-- Retry loop of a Celery stage task that fails on every run. -/
def failLoop (db : Database) (error : PyError) (fid taskName : String)
    (maxRetries r : Nat) : Database × Nat :=
  let res := handleTaskError db error fid taskName r
  if h : res.1.should_retry = true ∧ r < maxRetries then
    failLoop res.2 error fid taskName maxRetries (r + 1)
  else (res.2, r)
termination_by maxRetries + 1 - r
decreasing_by omega

/-- Loop body of `retry_failed_files` (tasks.py lines 318-325): scan the
snapshot of failed rows; for each with `retry_count < max_retry_count`,
reset its status to `pending` (no error message, no keyword arguments)
and dispatch `process_single_file.delay(file_id)`.  Returns the count
and the dispatched file ids together with the final store state. -/
def retryLoop (m : Nat) :
    List FileProcessingStatus → Database → Nat → List String →
    (Nat × List String) × Database
  | [], db, n, disp => ((n, disp), db)
  | f :: rest, db, n, disp =>
    if f.retry_count < m then
      retryLoop m rest (updateStatus db f.file_id "pending" none noKwargs).2
        (n + 1) (disp ++ [f.file_id])
    else retryLoop m rest db n disp

/-- `retry_failed_files` (tasks.py lines 307-341): iterate over
`get_failed_files()` with the loop above. -/
def retryFailedFiles (db : Database) (maxRetryCount : Nat) :
    (Nat × List String) × Database :=
  retryLoop maxRetryCount (db.files.filter (fun f => f.status = "failed")) db 0 []

/-! Queue operations performed by `process_single_file` (tasks.py lines
216-305).  The task drives all five stages from inside one worker task:
each stage sub-task is submitted with `.delay(...)` and then immediately
awaited with `.get(timeout=600)` on its `AsyncResult`. -/

/-- One interaction of a running worker task with the Celery queue:
`dispatch t` is `t.delay(...)`, `awaitResult t n` is the synchronous
blocking `AsyncResult.get(timeout=n)` on the sub-task just dispatched
for task `t`. -/
inductive QueueOp where
  | dispatch : String → QueueOp
  | awaitResult : String → Nat → QueueOp
  deriving Repr, DecidableEq

/-- The five stage tasks chained by `process_single_file`, in program
order (tasks.py lines 228-276). -/
def pipelineStageTasks : List String :=
  ["download_file", "convert_document", "chunk_document",
   "vectorize_chunks", "save_data"]

/-- Queue-operation trace of `process_single_file` for a work item that
starts at `pending` and whose five stage sub-tasks each succeed: every
stage is dispatched with `.delay` and then synchronously awaited with
`.get(timeout=600)` inside the running worker task (tasks.py lines
228-276). -/
def processSingleFileOps : List QueueOp :=
  pipelineStageTasks.flatMap
    (fun t => [QueueOp.dispatch t, QueueOp.awaitResult t 600])

/-- Whether a trace contains a dispatch of a sub-task immediately
followed by a synchronous blocking wait on that same sub-task's result
from within the running task. -/
def blocksOnDispatchedSubtask : List QueueOp → Bool
  | QueueOp.dispatch t :: QueueOp.awaitResult u n :: rest =>
    t = u || blocksOnDispatchedSubtask (QueueOp.awaitResult u n :: rest)
  | _ :: rest => blocksOnDispatchedSubtask rest
  | [] => false

/-! Cleanup (error_handler.py lines 228-269) together with the chunk
artifact written by `DocumentChunker.chunk_markdown`
(document_chunker.py lines 123-126).  The file system is modelled as
the list of existing paths. -/

/-- World state: the store plus the file system. -/
structure World where
  db : Database
  fs : List String
  deriving Repr, DecidableEq

/-- Path of the chunk output written by `chunk_markdown`
(document_chunker.py lines 20 and 123-126, with the default
`OUTPUT_DIR` of config.py line 29). -/
def chunksPath (fid : String) : String :=
  "./outputs/chunks/" ++ fid ++ "_chunks.json"

/-- The chunk-file write of `chunk_markdown` (document_chunker.py lines
123-126): the chunk output path for the file id comes into existence. -/
def writeChunksFile (w : World) (fid : String) : World :=
  ⟨w.db, w.fs ++ [chunksPath fid]⟩

/-- One `if path: ... os.remove(path)` block of `cleanup_failed_files`
(error_handler.py lines 246-254): a truthy recorded path is removed from
the file system when present. -/
def removeArtifact (fs : List String) : Option String → List String
  | none => fs
  | some p => if p = "" then fs else fs.filter (fun q => q ≠ p)

/-- The rows selected by the cleanup query (error_handler.py lines
237-240): status `failed` and `updated_at` older than the cutoff. -/
def cleanupTargets (db : Database) (cutoff : Int) : List FileProcessingStatus :=
  db.files.filter (fun f => f.status = "failed" && f.updated_at < cutoff)

/-- `ErrorHandler.cleanup_failed_files` (error_handler.py lines
228-269): compute the cutoff `utcnow - older_than_hours`, select the
failed rows older than it, remove each one's recorded download and
markdown files, delete each selected row, and return the cleaned
count. -/
def cleanupFailedFiles (w : World) (olderThanHours : Nat) : Nat × World :=
  let cutoff : Int := w.db.now - olderThanHours * 3600
  let targets := cleanupTargets w.db cutoff
  let fs2 := targets.foldl
    (fun fs f => removeArtifact (removeArtifact fs f.download_path) f.markdown_path)
    w.fs
  let files2 := w.db.files.filter
    (fun f => !(f.status = "failed" && f.updated_at < cutoff))
  (targets.length, ⟨⟨files2, w.db.logs, w.db.now⟩, fs2⟩)

/-- Paths denoted by one optional path column for the purposes of
`os.remove`: nothing for `None` or the empty string. -/
def optPath : Option String → List String
  | none => []
  | some p => if p = "" then [] else [p]

/-- Recorded artifact paths of one row: its truthy `download_path` and
`markdown_path` values. -/
def artifactsOf (f : FileProcessingStatus) : List String :=
  optPath f.download_path ++ optPath f.markdown_path

/-- Recorded artifact paths of the rows purged by a cleanup run. -/
def purgedArtifactPaths (w : World) (olderThanHours : Nat) : List String :=
  (cleanupTargets w.db (w.db.now - olderThanHours * 3600)).flatMap artifactsOf

/-- Stated from claim C3's words, for comparison with `shouldRetry`: the
four transient markers the claim names. -/
def claimTransientMarkers : List String :=
  ["timeout", "connection", "unavailable", "gateway"]

/-- Stated from claim C3's words, for comparison with `shouldRetry`:
no retry at or beyond `maxRetries`; otherwise retry exactly for
transient network/service exception classes or a message containing one
of the four markers of `claimTransientMarkers`. -/
def shouldRetryClaim (maxRetries : Nat) (error : PyError) (retryCount : Nat) : Bool :=
  if retryCount ≥ maxRetries then false
  else if isRetryableType error.kind then true
  else claimTransientMarkers.any (fun kw => containsSub (strLower error.message) kw)

/-! Helper lemmas shared by the claim theorems. -/

/-- A map that fixes every member of a list is the identity on it. -/
theorem map_congr_mem {α β : Type} (f g : α → β) :
    ∀ l : List α, (∀ a ∈ l, f a = g a) → l.map f = l.map g
  | [], _ => rfl
  | a :: l, h => by
    rw [List.map_cons, List.map_cons, h a (by simp),
      map_congr_mem f g l (fun b hb => h b (by simp [hb]))]

theorem updateFileFields_status (f : FileProcessingStatus) (st : String)
    (em : Option String) (kw : UpdateKwargs) (now : Int) :
    (updateFileFields f st em kw now).status = st := by
  unfold updateFileFields applyKwargs
  split <;> rfl

theorem updateFileFields_file_id (f : FileProcessingStatus) (st : String)
    (em : Option String) (kw : UpdateKwargs) (now : Int) :
    (updateFileFields f st em kw now).file_id = f.file_id := by
  unfold updateFileFields applyKwargs
  split <;> rfl

theorem updateFileFields_retry_count (f : FileProcessingStatus) (st : String)
    (em : Option String) (kw : UpdateKwargs) (now : Int)
    (h : kw.retry_count = none) :
    (updateFileFields f st em kw now).retry_count =
      if optTruthy em then f.retry_count + 1 else f.retry_count := by
  unfold updateFileFields applyKwargs
  split <;> simp [h]

theorem updateStatus_logs (db : Database) (fid st : String) (em : Option String)
    (kw : UpdateKwargs) : ((updateStatus db fid st em kw).2).logs = db.logs := rfl

theorem updateStatus_now (db : Database) (fid st : String) (em : Option String)
    (kw : UpdateKwargs) : ((updateStatus db fid st em kw).2).now = db.now := rfl

theorem updateFileList_find? (fid : String)
    (g : FileProcessingStatus → FileProcessingStatus)
    (hg : ∀ f, (g f).file_id = f.file_id) :
    ∀ (fs : List FileProcessingStatus) (f0 : FileProcessingStatus),
      fs.find? (fun f => f.file_id = fid) = some f0 →
      (updateFileList fs fid g).1 = true ∧
      (updateFileList fs fid g).2.find? (fun f => f.file_id = fid) = some (g f0) := by
  intro fs
  induction fs with
  | nil => intro f0 h; simp [List.find?] at h
  | cons f rest ih =>
    intro f0 h
    by_cases hf : f.file_id = fid
    · rw [List.find?_cons_of_pos _ (by simpa using hf)] at h
      injection h with h
      subst h
      refine ⟨by simp [updateFileList, hf], ?_⟩
      simp only [updateFileList, if_pos hf]
      exact List.find?_cons_of_pos _ (by simpa [hg] using hf)
    · rw [List.find?_cons_of_neg _ (by simpa using hf)] at h
      obtain ⟨h1, h2⟩ := ih f0 h
      refine ⟨?_, ?_⟩
      · simpa [updateFileList, hf] using h1
      · simp only [updateFileList, if_neg hf]
        rw [List.find?_cons_of_neg _ (by simpa using hf)]
        exact h2

theorem getFileStatus_updateStatus (db : Database) (fid st : String)
    (em : Option String) (kw : UpdateKwargs) (f0 : FileProcessingStatus)
    (h : getFileStatus db fid = some f0) :
    (updateStatus db fid st em kw).1 = true ∧
    getFileStatus (updateStatus db fid st em kw).2 fid =
      some (updateFileFields f0 st em kw db.now) := by
  have := updateFileList_find? fid
    (fun f => updateFileFields f st em kw db.now)
    (fun f => updateFileFields_file_id f st em kw db.now) db.files f0 h
  exact ⟨this.1, this.2⟩

theorem getFileStatus_addLog (db : Database) (fid level message : String)
    (x : Option Nat) (fid' : String) :
    getFileStatus (addLog db fid level message x) fid' = getFileStatus db fid' := rfl

theorem shouldRetry_of_type_lt (mr : Nat) (e : PyError) (r : Nat)
    (he : isRetryableType e.kind = true) (h : r < mr) :
    shouldRetry mr e r = true := by
  unfold shouldRetry
  rw [if_neg (by omega), if_pos he]

theorem shouldRetry_of_ge (mr : Nat) (e : PyError) (r : Nat) (h : mr ≤ r) :
    shouldRetry mr e r = false := by
  unfold shouldRetry
  rw [if_pos h]

theorem handleTaskError_should_retry (db : Database) (e : PyError)
    (fid tn : String) (r : Nat) :
    (handleTaskError db e fid tn r).1.should_retry = shouldRetry MAX_RETRIES e r := by
  unfold handleTaskError
  by_cases h : shouldRetry MAX_RETRIES e r <;> simp [h]

theorem handleTaskError_retry_db (db : Database) (e : PyError)
    (fid tn : String) (r : Nat) (h : shouldRetry MAX_RETRIES e r = true) :
    (handleTaskError db e fid tn r).2 =
      addLog db fid "ERROR" ("任务错误: " ++ tn ++ " - " ++ e.message) (some r) := by
  unfold handleTaskError
  simp [h]

theorem handleTaskError_stop_db (db : Database) (e : PyError)
    (fid tn : String) (r : Nat) (h : shouldRetry MAX_RETRIES e r = false) :
    (handleTaskError db e fid tn r).2 =
      (updateStatus
        (addLog db fid "ERROR" ("任务错误: " ++ tn ++ " - " ++ e.message) (some r))
        fid "failed" (some e.message) noKwargs).2 := by
  unfold handleTaskError
  simp [h]

theorem failLoop_step_retry (db : Database) (e : PyError) (fid tn : String)
    (mr r : Nat) (h1 : (handleTaskError db e fid tn r).1.should_retry = true)
    (h2 : r < mr) :
    failLoop db e fid tn mr r =
      failLoop (handleTaskError db e fid tn r).2 e fid tn mr (r + 1) := by
  rw [failLoop]
  simp [h1, h2]

theorem failLoop_step_stop (db : Database) (e : PyError) (fid tn : String)
    (mr r : Nat)
    (h : ¬((handleTaskError db e fid tn r).1.should_retry = true ∧ r < mr)) :
    failLoop db e fid tn mr r = ((handleTaskError db e fid tn r).2, r) := by
  rw [failLoop]
  simp only [dif_neg h]

theorem getLast?_append_singleton {α : Type} (a : α) :
    ∀ l : List α, (l ++ [a]).getLast? = some a
  | [] => rfl
  | b :: l => by
    cases l with
    | nil => rfl
    | cons c l' =>
      rw [List.cons_append, List.cons_append, List.getLast?_cons_cons]
      exact getLast?_append_singleton a (c :: l')

/-! Claim theorems. -/

/-- C4: with Celery's `max_retries = 3` and the handler's
`MAX_RETRIES = 3`, a stage task that fails with a transient
network-class error on every run stops after the fourth failure: the
retry counter at the run where retries stopped is 3 (not 4), the work
item ends `failed`, and the error log row recorded at that point carries
the attempt counter 3. -/
theorem c4_retry_bound (db : Database) (fid tn : String)
    (f0 : FileProcessingStatus) (e : PyError)
    (hf : getFileStatus db fid = some f0)
    (he : isRetryableType e.kind = true) :
    (failLoop db e fid tn 3 0).2 = 3 ∧
    (getFileStatus (failLoop db e fid tn 3 0).1 fid).map (fun f => f.status) =
      some "failed" ∧
    ((failLoop db e fid tn 3 0).1.logs.getLast?).map (fun l => l.extra_retry_count) =
      some (some 3) := by
  have s0 := shouldRetry_of_type_lt MAX_RETRIES e 0 he (by decide)
  have s1 := shouldRetry_of_type_lt MAX_RETRIES e 1 he (by decide)
  have s2 := shouldRetry_of_type_lt MAX_RETRIES e 2 he (by decide)
  have s3 := shouldRetry_of_ge MAX_RETRIES e 3 (by decide)
  rw [failLoop_step_retry db e fid tn 3 0
    (by rw [handleTaskError_should_retry]; exact s0) (by decide)]
  rw [handleTaskError_retry_db db e fid tn 0 s0]
  set db1 := addLog db fid "ERROR" ("任务错误: " ++ tn ++ " - " ++ e.message) (some 0)
    with hdb1
  rw [failLoop_step_retry db1 e fid tn 3 1
    (by rw [handleTaskError_should_retry]; exact s1) (by decide)]
  rw [handleTaskError_retry_db db1 e fid tn 1 s1]
  set db2 := addLog db1 fid "ERROR" ("任务错误: " ++ tn ++ " - " ++ e.message) (some 1)
    with hdb2
  rw [failLoop_step_retry db2 e fid tn 3 2
    (by rw [handleTaskError_should_retry]; exact s2) (by decide)]
  rw [handleTaskError_retry_db db2 e fid tn 2 s2]
  set db3 := addLog db2 fid "ERROR" ("任务错误: " ++ tn ++ " - " ++ e.message) (some 2)
    with hdb3
  rw [failLoop_step_stop db3 e fid tn 3 3
    (by rw [handleTaskError_should_retry, s3]; simp)]
  rw [handleTaskError_stop_db db3 e fid tn 3 s3]
  set db4 := addLog db3 fid "ERROR" ("任务错误: " ++ tn ++ " - " ++ e.message) (some 3)
    with hdb4
  have hf4 : getFileStatus db4 fid = some f0 := hf
  obtain ⟨-, hfind⟩ := getFileStatus_updateStatus db4 fid "failed" (some e.message)
    noKwargs f0 hf4
  refine ⟨rfl, ?_, ?_⟩
  · rw [hfind, Option.map_some', updateFileFields_status]
  · have hlogs : ((updateStatus db4 fid "failed" (some e.message) noKwargs).2).logs =
        db4.logs := rfl
    rw [hlogs, hdb4]
    have : (addLog db3 fid "ERROR" ("任务错误: " ++ tn ++ " - " ++ e.message)
        (some 3)).logs =
        db3.logs ++ [⟨fid, "ERROR", "任务错误: " ++ tn ++ " - " ++ e.message, some 3⟩] :=
      rfl
    rw [this, getLast?_append_singleton, Option.map_some']

/-- Witness for C4 at a concrete store and a concrete connection
error. -/
theorem c4_retry_bound_witness :
    (failLoop ⟨[⟨"f9", "downloading", 0, none, none, none, 0, 0, 0⟩], [], 5⟩
      ⟨PyExcKind.connectionError, "connection refused"⟩ "f9" "download_file" 3 0).2 = 3 ∧
    (getFileStatus (failLoop
      ⟨[⟨"f9", "downloading", 0, none, none, none, 0, 0, 0⟩], [], 5⟩
      ⟨PyExcKind.connectionError, "connection refused"⟩
      "f9" "download_file" 3 0).1 "f9").map (fun f => f.status) = some "failed" ∧
    ((failLoop ⟨[⟨"f9", "downloading", 0, none, none, none, 0, 0, 0⟩], [], 5⟩
      ⟨PyExcKind.connectionError, "connection refused"⟩
      "f9" "download_file" 3 0).1.logs.getLast?).map (fun l => l.extra_retry_count) =
      some (some 3) :=
  c4_retry_bound ⟨[⟨"f9", "downloading", 0, none, none, none, 0, 0, 0⟩], [], 5⟩
    "f9" "download_file" ⟨"f9", "downloading", 0, none, none, none, 0, 0, 0⟩
    ⟨PyExcKind.connectionError, "connection refused"⟩ (by decide) (by decide)

/-- C1, counterexample: `update_status` happily moves an item backwards.
Starting from a `completed` item, a single store update to `downloading`
succeeds and is recorded, although `downloading` precedes `completed` in
the fixed stage order and the target is not the operator reset to
`pending`; the claimed forward-only invariant is false of the store's
update operation. -/
theorem c1_regression_allowed :
    (updateStatus ⟨[⟨"f1", "completed", 0, none, none, none, 0, 0, 0⟩], [], 9⟩
      "f1" "downloading" none noKwargs).1 = true ∧
    (getFileStatus (updateStatus
      ⟨[⟨"f1", "completed", 0, none, none, none, 0, 0, 0⟩], [], 9⟩
      "f1" "downloading" none noKwargs).2 "f1").map (fun f => f.status) =
      some "downloading" ∧
    stageOrder.indexOf "downloading" < stageOrder.indexOf "completed" ∧
    "downloading" ≠ "pending" := by decide

/-- C1, amended: the store's update operation enforces no ordering at
all.  For every store state, every existing work item and every target
status string — including regressions and stage skips — `update_status`
returns `true` and records exactly that status; the forward-only stage
order is maintained only by the discipline of the callers, not by the
store. -/
theorem c1_update_status_unrestricted (db : Database) (fid st : String)
    (em : Option String) (kw : UpdateKwargs) (f0 : FileProcessingStatus)
    (h : getFileStatus db fid = some f0) :
    (updateStatus db fid st em kw).1 = true ∧
    getFileStatus (updateStatus db fid st em kw).2 fid =
      some (updateFileFields f0 st em kw db.now) ∧
    (updateFileFields f0 st em kw db.now).status = st := by
  obtain ⟨h1, h2⟩ := getFileStatus_updateStatus db fid st em kw f0 h
  exact ⟨h1, h2, updateFileFields_status f0 st em kw db.now⟩

/-- Witness for C1's amended theorem at a concrete regressing update. -/
theorem c1_update_status_unrestricted_witness :
    (updateStatus ⟨[⟨"f2", "completed", 0, none, none, none, 0, 0, 0⟩], [], 9⟩
      "f2" "converting" none noKwargs).1 = true ∧
    getFileStatus (updateStatus
      ⟨[⟨"f2", "completed", 0, none, none, none, 0, 0, 0⟩], [], 9⟩
      "f2" "converting" none noKwargs).2 "f2" =
      some (updateFileFields ⟨"f2", "completed", 0, none, none, none, 0, 0, 0⟩
        "converting" none noKwargs 9) ∧
    (updateFileFields ⟨"f2", "completed", 0, none, none, none, 0, 0, 0⟩
      "converting" none noKwargs 9).status = "converting" :=
  c1_update_status_unrestricted
    ⟨[⟨"f2", "completed", 0, none, none, none, 0, 0, 0⟩], [], 9⟩
    "f2" "converting" none noKwargs
    ⟨"f2", "completed", 0, none, none, none, 0, 0, 0⟩ (by decide)

/-- C2: the retry delay is `min(60 * 2^attempts, 600)`; it is 60, 120,
240, 480 for attempts 0, 1, 2, 3 and exactly 600 for every attempts
count of at least 4. -/
theorem c2_backoff_formula :
    (∀ n, calculateRetryDelay n = min (60 * 2 ^ n) 600) ∧
    calculateRetryDelay 0 = 60 ∧ calculateRetryDelay 1 = 120 ∧
    calculateRetryDelay 2 = 240 ∧ calculateRetryDelay 3 = 480 ∧
    ∀ n, 4 ≤ n → calculateRetryDelay n = 600 := by
  refine ⟨fun n => rfl, by decide, by decide, by decide, by decide, ?_⟩
  intro n hn
  have h1 : (600 : ℕ) ≤ 60 * 2 ^ n := by
    calc (600 : ℕ) ≤ 60 * 2 ^ 4 := by decide
    _ ≤ 60 * 2 ^ n := Nat.mul_le_mul_left 60 (Nat.pow_le_pow_right (by decide) hn)
  unfold calculateRetryDelay baseDelay maxDelay
  omega

/-- Witness for C2's capped branch at a concrete attempts count. -/
theorem c2_backoff_formula_witness :
    4 ≤ 7 ∧ calculateRetryDelay 7 = 600 :=
  ⟨by decide, c2_backoff_formula.2.2.2.2.2 7 (by decide)⟩

/-- C3, counterexample: the classifier's keyword list is not the four
markers the claim names.  A failure of a non-transient class whose
message is `temporary` is retried by the code although it matches none
of the claim's markers, and a message `resource unavailable` is not
retried by the code (whose keyword is `service unavailable`) although it
contains the claim's marker `unavailable`. -/
theorem c3_marker_list_mismatch :
    shouldRetry MAX_RETRIES ⟨PyExcKind.genericException, "temporary"⟩ 0 = true ∧
    shouldRetryClaim MAX_RETRIES ⟨PyExcKind.genericException, "temporary"⟩ 0 = false ∧
    shouldRetry MAX_RETRIES
      ⟨PyExcKind.genericException, "resource unavailable"⟩ 0 = false ∧
    shouldRetryClaim MAX_RETRIES
      ⟨PyExcKind.genericException, "resource unavailable"⟩ 0 = true := by decide

/-- C3, amended: for every failure and attempts count, should_retry is
false at or beyond maxRetries, and otherwise true exactly when the
failure is of a transient network/service exception class or its
lowercased message contains one of the code's eight transient keywords
(timeout, connection, network, temporary, service unavailable, internal
server error, bad gateway, gateway timeout); validation and all other
failures are not retried. -/
theorem c3_retry_classifier_characterization :
    ∀ (mr : Nat) (e : PyError) (n : Nat),
      shouldRetry mr e n =
        (decide (n < mr) && (isRetryableType e.kind ||
          retryableKeywords.any (fun kw => containsSub (strLower e.message) kw))) := by
  intro mr e n
  unfold shouldRetry
  by_cases h : n ≥ mr
  · simp [h, Nat.not_lt.mpr h]
  · have h' : n < mr := Nat.lt_of_not_le h
    by_cases hk : isRetryableType e.kind
    · simp [h, h', hk]
    · simp [h, h', hk]

theorem updateFileList_eq_map (fid : String)
    (g : FileProcessingStatus → FileProcessingStatus)
    (_hg : ∀ f, (g f).file_id = f.file_id) :
    ∀ fs : List FileProcessingStatus,
      (fs.map (fun f => f.file_id)).Nodup →
      (updateFileList fs fid g).2 =
        fs.map (fun f => if f.file_id = fid then g f else f) := by
  intro fs
  induction fs with
  | nil => intro _; rfl
  | cons f rest ih =>
    intro hnd
    rw [List.map_cons, List.nodup_cons] at hnd
    obtain ⟨hnot, hnd'⟩ := hnd
    by_cases hf : f.file_id = fid
    · simp only [updateFileList, if_pos hf, List.map_cons]
      have hmap : rest.map (fun x => if x.file_id = fid then g x else x) =
          rest.map id := by
        refine map_congr_mem _ _ rest (fun x hx => ?_)
        have hx' : x.file_id ≠ fid := by
          intro hxf
          exact hnot (List.mem_map.mpr ⟨x, hx, by rw [hxf, hf]⟩)
        rw [if_neg hx']
        rfl
      rw [hmap, List.map_id]
    · simp only [updateFileList, if_neg hf, List.map_cons]
      rw [ih hnd']

theorem updateFileList_ids (fid : String)
    (g : FileProcessingStatus → FileProcessingStatus)
    (hg : ∀ f, (g f).file_id = f.file_id) :
    ∀ fs : List FileProcessingStatus,
      (updateFileList fs fid g).2.map (fun f => f.file_id) =
        fs.map (fun f => f.file_id) := by
  intro fs
  induction fs with
  | nil => rfl
  | cons f rest ih =>
    by_cases hf : f.file_id = fid
    · simp only [updateFileList, if_pos hf, List.map_cons, hg]
    · simp only [updateFileList, if_neg hf, List.map_cons]
      rw [ih]

theorem updateStatus_files_eq_map (db : Database) (fid st : String)
    (em : Option String) (kw : UpdateKwargs)
    (hnd : (db.files.map (fun f => f.file_id)).Nodup) :
    ((updateStatus db fid st em kw).2).files =
      db.files.map (fun f =>
        if f.file_id = fid then updateFileFields f st em kw db.now else f) :=
  updateFileList_eq_map fid _ (fun f => updateFileFields_file_id f st em kw db.now)
    db.files hnd

theorem updateStatus_ids (db : Database) (fid st : String)
    (em : Option String) (kw : UpdateKwargs) :
    ((updateStatus db fid st em kw).2).files.map (fun f => f.file_id) =
      db.files.map (fun f => f.file_id) :=
  updateFileList_ids fid _ (fun f => updateFileFields_file_id f st em kw db.now)
    db.files

/-- File ids re-activated by one retry sweep over a given snapshot of
failed rows. -/
def sweepSelected (m : Nat) (snapshot : List FileProcessingStatus) : List String :=
  (snapshot.filter (fun s => s.retry_count < m)).map (fun s => s.file_id)

theorem retryLoop_spec (m : Nat) :
    ∀ (snapshot : List FileProcessingStatus) (db : Database) (n : Nat)
      (disp : List String),
      (db.files.map (fun f => f.file_id)).Nodup →
      (snapshot.map (fun f => f.file_id)).Nodup →
      retryLoop m snapshot db n disp =
        ((n + (sweepSelected m snapshot).length, disp ++ sweepSelected m snapshot),
         ⟨db.files.map (fun f =>
            if f.file_id ∈ sweepSelected m snapshot
            then updateFileFields f "pending" none noKwargs db.now else f),
          db.logs, db.now⟩) := by
  intro snapshot
  induction snapshot with
  | nil =>
    intro db n disp hdb hsnap
    have hmap : db.files.map (fun f =>
        if f.file_id ∈ ([] : List String) then
          updateFileFields f "pending" none noKwargs db.now else f) =
        db.files.map id := by
      refine map_congr_mem _ _ db.files (fun f hf => ?_)
      rw [if_neg (List.not_mem_nil _)]
      rfl
    simp only [retryLoop, sweepSelected, List.filter_nil, List.map_nil,
      List.length_nil, Nat.add_zero, List.append_nil]
    rw [hmap, List.map_id]
  | cons s rest ih =>
    intro db n disp hdb hsnap
    rw [List.map_cons, List.nodup_cons] at hsnap
    obtain ⟨hnot, hrest⟩ := hsnap
    by_cases hsm : s.retry_count < m
    · have hsel : sweepSelected m (s :: rest) = s.file_id :: sweepSelected m rest := by
        simp [sweepSelected, hsm]
      have hstep : retryLoop m (s :: rest) db n disp =
          retryLoop m rest (updateStatus db s.file_id "pending" none noKwargs).2
            (n + 1) (disp ++ [s.file_id]) := by
        simp [retryLoop, hsm]
      have hdb2 : (((updateStatus db s.file_id "pending" none noKwargs).2).files.map
          (fun f => f.file_id)).Nodup := by
        rw [updateStatus_ids]
        exact hdb
      rw [hstep, ih (updateStatus db s.file_id "pending" none noKwargs).2
        (n + 1) (disp ++ [s.file_id]) hdb2 hrest]
      have hnotsel : s.file_id ∉ sweepSelected m rest := by
        intro hmem
        obtain ⟨x, hx, hxid⟩ := List.mem_map.mp hmem
        exact hnot (List.mem_map.mpr ⟨x, List.mem_of_mem_filter hx, hxid⟩)
      have hfiles : ((updateStatus db s.file_id "pending" none noKwargs).2).files.map
          (fun f => if f.file_id ∈ sweepSelected m rest then
            updateFileFields f "pending" none noKwargs
              ((updateStatus db s.file_id "pending" none noKwargs).2).now
          else f) =
          db.files.map (fun f => if f.file_id ∈ sweepSelected m (s :: rest) then
            updateFileFields f "pending" none noKwargs db.now else f) := by
        rw [updateStatus_files_eq_map db s.file_id "pending" none noKwargs hdb,
          List.map_map]
        refine map_congr_mem _ _ db.files (fun f hf => ?_)
        simp only [Function.comp]
        by_cases hfid : f.file_id = s.file_id
        · rw [if_pos hfid]
          rw [if_neg (by rw [updateFileFields_file_id, hfid]; exact hnotsel)]
          rw [if_pos (by rw [hsel, hfid]; exact List.mem_cons_self _ _)]
        · rw [if_neg hfid]
          have hmemiff : f.file_id ∈ sweepSelected m (s :: rest) ↔
              f.file_id ∈ sweepSelected m rest := by
            rw [hsel, List.mem_cons]
            exact ⟨fun h => h.elim (fun h => absurd h hfid) id, Or.inr⟩
          by_cases hmem : f.file_id ∈ sweepSelected m rest
          · rw [if_pos hmem, if_pos (hmemiff.mpr hmem)]
            rfl
          · rw [if_neg hmem, if_neg (fun h => hmem (hmemiff.mp h))]
      rw [hfiles, hsel]
      have hlogs : ((updateStatus db s.file_id "pending" none noKwargs).2).logs =
          db.logs := rfl
      have hnow : ((updateStatus db s.file_id "pending" none noKwargs).2).now =
          db.now := rfl
      rw [hlogs, hnow]
      have hlen : n + 1 + (sweepSelected m rest).length =
          n + (s.file_id :: sweepSelected m rest).length := by
        simp [List.length_cons]; omega
      have happ : disp ++ [s.file_id] ++ sweepSelected m rest =
          disp ++ s.file_id :: sweepSelected m rest := by
        rw [List.append_assoc]
        rfl
      rw [hlen, happ]
    · have hsel : sweepSelected m (s :: rest) = sweepSelected m rest := by
        simp [sweepSelected, hsm]
      have hstep : retryLoop m (s :: rest) db n disp = retryLoop m rest db n disp := by
        simp [retryLoop, hsm]
      rw [hstep, ih db n disp hdb hrest, hsel]

/-- C7, counterexample: the sweep does reset the stage but not the
attempts counter.  A failed item with `retry_count = 2` swept with bound
3 ends at `pending` with `retry_count` still 2, not the claimed 0. -/
theorem c7_sweep_keeps_attempts :
    (getFileStatus (retryFailedFiles
      ⟨[⟨"f1", "failed", 2, some "boom", none, none, 0, 0, 0⟩], [], 5⟩ 3).2 "f1").map
      (fun f => (f.status, f.retry_count)) = some ("pending", 2) ∧
    (2 : Nat) ≠ 0 := by decide

/-- C7, amended: with distinct file ids, the operator retry sweep
re-activates exactly the failed items whose attempts counter is strictly
below the bound, setting each one's stage to `pending` and re-dispatching
processing for it, while leaving its attempts counter unchanged (it is
not reset to 0); failed items at or above the bound, and non-failed
items, are untouched, and no log entry is appended. -/
theorem c7_retry_sweep_characterization (db : Database) (m : Nat)
    (hnd : (db.files.map (fun f => f.file_id)).Nodup) :
    retryFailedFiles db m =
      (((db.files.filter (fun f => f.status = "failed" && f.retry_count < m)).length,
        (db.files.filter (fun f => f.status = "failed" && f.retry_count < m)).map
          (fun f => f.file_id)),
       ⟨db.files.map (fun f =>
          if f.status = "failed" ∧ f.retry_count < m
          then updateFileFields f "pending" none noKwargs db.now else f),
        db.logs, db.now⟩) := by
  have hsnap : ((db.files.filter (fun f => f.status = "failed")).map
      (fun f => f.file_id)).Nodup :=
    List.Nodup.sublist (List.Sublist.map _ (List.filter_sublist db.files)) hnd
  have hspec := retryLoop_spec m (db.files.filter (fun f => f.status = "failed"))
    db 0 [] hnd hsnap
  have hsel : sweepSelected m (db.files.filter (fun f => f.status = "failed")) =
      (db.files.filter (fun f => f.status = "failed" && f.retry_count < m)).map
        (fun f => f.file_id) := by
    rw [sweepSelected, List.filter_filter]
    rw [show (fun a : FileProcessingStatus =>
        decide (a.retry_count < m) && decide (a.status = "failed")) =
      (fun a : FileProcessingStatus =>
        decide (a.status = "failed") && decide (a.retry_count < m)) from
      funext (fun a => Bool.and_comm _ _)]
  have hfiles : db.files.map (fun f =>
      if f.file_id ∈ sweepSelected m (db.files.filter (fun f => f.status = "failed"))
      then updateFileFields f "pending" none noKwargs db.now else f) =
      db.files.map (fun f =>
        if f.status = "failed" ∧ f.retry_count < m
        then updateFileFields f "pending" none noKwargs db.now else f) := by
    refine map_congr_mem _ _ db.files (fun f hf => ?_)
    have hiff : f.file_id ∈
        sweepSelected m (db.files.filter (fun f => f.status = "failed")) ↔
        (f.status = "failed" ∧ f.retry_count < m) := by
      rw [hsel]
      constructor
      · intro hmem
        obtain ⟨x, hx, hxid⟩ := List.mem_map.mp hmem
        obtain ⟨hxmem, hxprop⟩ := List.mem_filter.mp hx
        have hxf : x = f := List.inj_on_of_nodup_map hnd hxmem hf hxid
        subst hxf
        simpa using hxprop
      · intro hcond
        refine List.mem_map.mpr ⟨f, List.mem_filter.mpr ⟨hf, ?_⟩, rfl⟩
        simpa using hcond
    by_cases hc : f.status = "failed" ∧ f.retry_count < m
    · rw [if_pos (hiff.mpr hc), if_pos hc]
    · rw [if_neg (fun h => hc (hiff.mp h)), if_neg hc]
  rw [retryFailedFiles, hspec, hfiles, hsel]
  simp [List.length_map]

/-- Witness for C7's amended characterization at a concrete store of
three items. -/
theorem c7_retry_sweep_characterization_witness :
    retryFailedFiles ⟨[⟨"g1", "failed", 1, some "x", none, none, 0, 0, 0⟩,
      ⟨"g2", "failed", 3, some "y", none, none, 0, 0, 0⟩,
      ⟨"g3", "completed", 0, none, none, none, 0, 0, 0⟩], [], 7⟩ 3 =
      ((1, ["g1"]),
       ⟨[⟨"g1", "pending", 1, some "x", none, none, 0, 0, 7⟩,
         ⟨"g2", "failed", 3, some "y", none, none, 0, 0, 0⟩,
         ⟨"g3", "completed", 0, none, none, none, 0, 0, 0⟩], [], 7⟩) :=
  c7_retry_sweep_characterization
    ⟨[⟨"g1", "failed", 1, some "x", none, none, 0, 0, 0⟩,
      ⟨"g2", "failed", 3, some "y", none, none, 0, 0, 0⟩,
      ⟨"g3", "completed", 0, none, none, none, 0, 0, 0⟩], [], 7⟩ 3 (by decide)

/-- C5, counterexample: a successful stage advance does not reset the
attempts counter.  An item at `downloading` with one recorded failure is
advanced to the `downloaded` marker; its `retry_count` stays 1 instead
of the claimed reset to 0. -/
theorem c5_no_reset_on_advance :
    (getFileStatus (updateStatus
      ⟨[⟨"f1", "downloading", 1, some "boom", none, none, 0, 0, 0⟩], [], 5⟩
      "f1" "downloaded" none noKwargs).2 "f1").map (fun f => f.retry_count) =
      some 1 ∧ (1 : Nat) ≠ 0 := by decide

/-- C5, amended: unless a caller overrides the counter through the
keyword arguments (no caller does), `update_status` increments
`retry_count` exactly on updates that carry a truthy error message and
leaves it unchanged on every other update; in particular a successful
stage advance never resets it to 0. -/
theorem c5_retry_count_update_rule (db : Database) (fid st : String)
    (em : Option String) (kw : UpdateKwargs) (f0 : FileProcessingStatus)
    (hkw : kw.retry_count = none) (h : getFileStatus db fid = some f0) :
    (getFileStatus (updateStatus db fid st em kw).2 fid).map
      (fun f => f.retry_count) =
      some (if optTruthy em then f0.retry_count + 1 else f0.retry_count) := by
  obtain ⟨-, h2⟩ := getFileStatus_updateStatus db fid st em kw f0 h
  rw [h2, Option.map_some']
  rw [updateFileFields_retry_count f0 st em kw db.now hkw]

/-- Witness for C5's amended theorem: a concrete successful advance
leaves the counter at its prior value. -/
theorem c5_retry_count_update_rule_witness :
    (getFileStatus (updateStatus
      ⟨[⟨"f3", "downloading", 2, some "boom", none, none, 0, 0, 0⟩], [], 5⟩
      "f3" "downloaded" none noKwargs).2 "f3").map (fun f => f.retry_count) =
      some (if optTruthy none then 2 + 1 else 2) :=
  c5_retry_count_update_rule
    ⟨[⟨"f3", "downloading", 2, some "boom", none, none, 0, 0, 0⟩], [], 5⟩
    "f3" "downloaded" none noKwargs
    ⟨"f3", "downloading", 2, some "boom", none, none, 0, 0, 0⟩
    (by decide) (by decide)

/-- C6, counterexample: a successful `update_status` call appends no
event-log entry at all, not exactly one: starting from an empty logs
table the update succeeds and the logs table is still empty. -/
theorem c6_no_log_side_effect :
    (updateStatus ⟨[⟨"f1", "pending", 0, none, none, none, 0, 0, 0⟩], [], 5⟩
      "f1" "downloading" none noKwargs).1 = true ∧
    ((updateStatus ⟨[⟨"f1", "pending", 0, none, none, none, 0, 0, 0⟩], [], 5⟩
      "f1" "downloading" none noKwargs).2).logs.length = 0 ∧
    (0 : Nat) ≠ 0 + 1 := by decide

/-- C6, amended: `update_status` never touches the event log; log
entries are appended only by separate `add_log` calls made by the
callers, so a successful transition appends an entry only when its
caller pairs the update with such a call (the retry sweep's reset to
`pending`, for one, appends none). -/
theorem c6_update_status_preserves_logs :
    ∀ (db : Database) (fid st : String) (em : Option String) (kw : UpdateKwargs),
      ((updateStatus db fid st em kw).2).logs = db.logs :=
  fun _ _ _ _ _ => rfl

theorem filter_congr_mem {α : Type} (p q : α → Bool) :
    ∀ l : List α, (∀ a ∈ l, p a = q a) → l.filter p = l.filter q
  | [], _ => rfl
  | a :: l, h => by
    have ha := h a (by simp)
    have hl := filter_congr_mem p q l (fun b hb => h b (by simp [hb]))
    by_cases hp : p a = true
    · rw [List.filter_cons_of_pos hp, List.filter_cons_of_pos (ha ▸ hp), hl]
    · rw [List.filter_cons_of_neg (by simpa using hp),
        List.filter_cons_of_neg (by rw [← ha]; simpa using hp), hl]

theorem filter_all_true {α : Type} (p : α → Bool) :
    ∀ l : List α, (∀ a ∈ l, p a = true) → l.filter p = l
  | [], _ => rfl
  | a :: l, h => by
    rw [List.filter_cons_of_pos (h a (by simp)),
      filter_all_true p l (fun b hb => h b (by simp [hb]))]

theorem filter_filter_own {α : Type} (p q : α → Bool) :
    ∀ l : List α, (l.filter p).filter q = l.filter (fun a => p a && q a)
  | [] => rfl
  | a :: l => by
    by_cases hp : p a = true
    · by_cases hq : q a = true
      · rw [List.filter_cons_of_pos hp, List.filter_cons_of_pos hq,
          List.filter_cons_of_pos (by rw [hp, hq]; rfl), filter_filter_own p q l]
      · rw [List.filter_cons_of_pos hp, List.filter_cons_of_neg (by simpa using hq),
          List.filter_cons_of_neg (by rw [hp]; simpa using hq), filter_filter_own p q l]
    · rw [List.filter_cons_of_neg (by simpa using hp),
        List.filter_cons_of_neg (by rw [Bool.eq_false_iff.mpr hp]; simp),
        filter_filter_own p q l]

theorem removeArtifact_eq_filter (fs : List String) (o : Option String) :
    removeArtifact fs o = fs.filter (fun p => decide (p ∉ optPath o)) := by
  cases o with
  | none =>
    rw [removeArtifact]
    exact (filter_all_true _ fs (fun a _ => by simp [optPath])).symm
  | some p =>
    by_cases hp : p = ""
    · rw [removeArtifact, if_pos hp]
      exact (filter_all_true _ fs (fun a _ => by simp [optPath, hp])).symm
    · rw [removeArtifact, if_neg hp]
      refine filter_congr_mem _ _ fs (fun a _ => ?_)
      simp [optPath, hp]

theorem foldl_remove_eq_filter :
    ∀ (targets : List FileProcessingStatus) (fs : List String),
      targets.foldl (fun fs f =>
        removeArtifact (removeArtifact fs f.download_path) f.markdown_path) fs =
      fs.filter (fun p => decide (p ∉ targets.flatMap artifactsOf))
  | [], fs => by
    rw [List.foldl_nil]
    exact (filter_all_true _ fs (fun a _ => by simp)).symm
  | t :: targets, fs => by
    rw [List.foldl_cons, foldl_remove_eq_filter targets]
    rw [removeArtifact_eq_filter, removeArtifact_eq_filter, filter_filter_own,
      filter_filter_own]
    refine filter_congr_mem _ _ fs (fun a _ => ?_)
    simp only [List.flatMap_cons, List.mem_append, artifactsOf]
    by_cases h1 : a ∈ optPath t.download_path
    · simp [h1]
    · by_cases h2 : a ∈ optPath t.markdown_path
      · simp [h1, h2]
      · by_cases h3 : a ∈ targets.flatMap artifactsOf
        · simp [h1, h2, h3]
        · simp [h1, h2, h3]

/-- C8, counterexample: cleanup does not remove the chunk output.  A
`failed` item two hours old, cleaned with a one-hour threshold, loses
its store record and its recorded downloaded and markdown files, but the
chunk output file written by `chunk_markdown` is still present
afterwards, contradicting the claim that all stage artifacts are
removed. -/
theorem c8_chunk_file_survives_cleanup :
    cleanupFailedFiles ⟨⟨[⟨"f1", "failed", 0, some "x", some "./downloads/f1.pdf",
        some "./outputs/f1.md", 3, 0, 0⟩], [], 7200⟩,
      ["./downloads/f1.pdf", "./outputs/f1.md", "./outputs/chunks/f1_chunks.json"]⟩ 1 =
      (1, ⟨⟨[], [], 7200⟩, ["./outputs/chunks/f1_chunks.json"]⟩) ∧
    chunksPath "f1" ∈ (cleanupFailedFiles ⟨⟨[⟨"f1", "failed", 0, some "x",
        some "./downloads/f1.pdf", some "./outputs/f1.md", 3, 0, 0⟩], [], 7200⟩,
      ["./downloads/f1.pdf", "./outputs/f1.md",
        "./outputs/chunks/f1_chunks.json"]⟩ 1).2.fs ∧
    chunksPath "f1" ∈ (writeChunksFile ⟨⟨[], [], 0⟩, []⟩ "f1").fs := by decide

/-- C8, amended: the cleanup operation purges exactly the `failed`
records whose last update is older than the threshold, leaving every
other record and the whole event log untouched; from the file system it
removes exactly the purged records' recorded download and markdown
paths — the chunk output artifact is not removed. -/
theorem c8_cleanup_characterization (w : World) (h : Nat) :
    cleanupFailedFiles w h =
      ((cleanupTargets w.db (w.db.now - h * 3600)).length,
       ⟨⟨w.db.files.filter
          (fun f => !(f.status = "failed" && f.updated_at < w.db.now - h * 3600)),
         w.db.logs, w.db.now⟩,
        w.fs.filter (fun p => decide (p ∉ purgedArtifactPaths w h))⟩) := by
  simp only [cleanupFailedFiles, purgedArtifactPaths]
  rw [foldl_remove_eq_filter]

/-- C9: the whole-pipeline task is not continuation-based.  Its queue
trace for a pending item whose stages succeed dispatches each of the
five stage sub-tasks and immediately blocks on that sub-task's result
with a synchronous `get(timeout=600)` inside the running worker task,
the exact pattern the design rule forbids. -/
theorem c9_process_single_file_blocks :
    blocksOnDispatchedSubtask processSingleFileOps = true ∧
    processSingleFileOps =
      [QueueOp.dispatch "download_file", QueueOp.awaitResult "download_file" 600,
       QueueOp.dispatch "convert_document", QueueOp.awaitResult "convert_document" 600,
       QueueOp.dispatch "chunk_document", QueueOp.awaitResult "chunk_document" 600,
       QueueOp.dispatch "vectorize_chunks", QueueOp.awaitResult "vectorize_chunks" 600,
       QueueOp.dispatch "save_data", QueueOp.awaitResult "save_data" 600] := by decide

/-- C10: the statistics query never divides by zero: with no work items
the success rate is exactly 0, otherwise it is completed/total*100,
which always lies between 0 and 100. -/
theorem c10_success_rate_safe (db : Database) :
    (db.files.length = 0 → (getStatistics db).success_rate = 0) ∧
    (0 < db.files.length →
      (getStatistics db).success_rate =
        ((db.files.filter (fun f => f.status = "completed")).length : ℚ) /
          (db.files.length : ℚ) * 100) ∧
    0 ≤ (getStatistics db).success_rate ∧
    (getStatistics db).success_rate ≤ 100 := by
  have hrate : (getStatistics db).success_rate =
      if db.files.length > 0 then
        ((db.files.filter (fun f => f.status = "completed")).length : ℚ) /
          (db.files.length : ℚ) * 100
      else 0 := rfl
  by_cases ht : 0 < db.files.length
  · have hc : (db.files.filter (fun f => f.status = "completed")).length ≤
        db.files.length := List.length_filter_le _ _
    have hcq : ((db.files.filter (fun f => f.status = "completed")).length : ℚ) ≤
        (db.files.length : ℚ) := by exact_mod_cast hc
    have htq : (0 : ℚ) < (db.files.length : ℚ) := by exact_mod_cast ht
    rw [hrate, if_pos ht]
    refine ⟨fun h0 => absurd h0 (Nat.pos_iff_ne_zero.mp ht), fun _ => rfl, ?_, ?_⟩
    · positivity
    · calc ((db.files.filter (fun f => f.status = "completed")).length : ℚ) /
          (db.files.length : ℚ) * 100 ≤ 1 * 100 := by
            have := div_le_one_of_le₀ hcq (le_of_lt htq)
            nlinarith
      _ = 100 := one_mul 100
  · rw [hrate, if_neg ht]
    exact ⟨fun _ => rfl, fun h0 => absurd h0 ht, le_refl 0, by norm_num⟩

/-- Witness for C10 at the empty store and at a store of two items with
one completed. -/
theorem c10_success_rate_safe_witness :
    (getStatistics ⟨[], [], 0⟩).success_rate = 0 ∧
    (getStatistics ⟨[⟨"a", "completed", 0, none, none, none, 0, 0, 0⟩,
        ⟨"b", "failed", 0, none, none, none, 0, 0, 0⟩], [], 0⟩).success_rate =
      ((([⟨"a", "completed", 0, none, none, none, 0, 0, 0⟩,
          ⟨"b", "failed", 0, none, none, none, 0, 0, 0⟩] :
          List FileProcessingStatus).filter
            (fun f => f.status = "completed")).length : ℚ) / (2 : ℚ) * 100 :=
  ⟨(c10_success_rate_safe ⟨[], [], 0⟩).1 rfl,
   (c10_success_rate_safe ⟨[⟨"a", "completed", 0, none, none, none, 0, 0, 0⟩,
      ⟨"b", "failed", 0, none, none, none, 0, 0, 0⟩], [], 0⟩).2.1 (by decide)⟩

end DocScript
